/-
Verification of the FatBvhStrategy of the RadeonRays SDK
(src/RadeonRays/src/strategy/fatbvhstrategy.cpp) against its
natural-language specification.

The development is a shallow embedding of the strategy source:

* The scene containers (Mesh, Instance, World) and the compute layer
  (Calc::Device, Calc::Buffer) are consumed by the strategy through a
  narrow interface; they are embedded as plain record types holding the
  data the strategy reads through that interface.
* Geometry values (vertices, matrices, bounding boxes) are opaque to the
  strategy: it only moves them around and feeds them to transform_point /
  transform_bbox / GetFaceBounds.  They are embedded as type parameters
  V (float3), M (matrix), B (bbox) together with the functions the
  strategy calls on them.
* The CPU-side buffer writes of Preprocess (mapped device memory,
  std::vector writes) are embedded as functions Nat -> value built by
  per-element overwrites, mirroring the loops of the source.
* The device-buffer lifecycle (CreateBuffer / DeleteBuffer) is embedded
  as a small allocator state: every created buffer gets a fresh id, a
  deleted buffer is removed from the live list.
* Machine integers: the sizes in the 32-bit `4 * numrays * kMaxStackSize`
  computation of the query entry points wrap modulo 2^32 because numrays
  (resp. maxrays) is a std::uint32_t and the multiplication is performed
  in `unsigned int` before being widened to size_t; this is modelled with
  an explicit `% 2 ^ 32`.  All other size computations in the file stay
  far below any overflow and are modelled on Nat.
-/
import Mathlib

namespace FatBvh

/-! ## Scene data model (interface consumed from Mesh / Instance / World)

`Mesh::Face` of the source carries three vertex indices relative to the
owning mesh (fatbvhstrategy.cpp reads `myfacedata[faceidx].idx[0..2]`). -/

structure MeshFace where
  idx0 : Nat
  idx1 : Nat
  idx2 : Nat
deriving DecidableEq

/-- A mesh, as seen through the interface the strategy uses:
`num_vertices()`, `num_faces()`, `GetVertexData()`, `GetFaceData()`,
`GetTransform(m, minv)` (only the forward matrix `m` is consumed by the
strategy), and `GetFaceBounds(j, objectspace, out box)`. -/
structure Mesh (V M B : Type) where
  numVertices : Nat
  numFaces : Nat
  vertexData : Nat → V
  faceData : Nat → MeshFace
  transform : M
  faceBounds : Nat → Bool → B

/-- An instance: a base mesh plus the instance's own forward transform
(`Instance::GetBaseShape`, `Instance::GetTransform`). -/
structure MeshInstance (V M B : Type) where
  base : Mesh V M B
  transform : M

/-- A shape of `world.shapes_` is either a mesh or an instance
(`ShapeImpl::is_instance` dispatch in the source). -/
inductive Shape (V M B : Type) where
  | mesh : Mesh V M B → Shape V M B
  | inst : MeshInstance V M B → Shape V M B

variable {V M B : Type}

def Shape.is_instance : Shape V M B → Bool
  | .mesh _ => false
  | .inst _ => true

/-- The mesh the strategy reads geometry from: the shape itself for a
mesh, `GetBaseShape()` for an instance. -/
def Shape.baseMesh : Shape V M B → Mesh V M B
  | .mesh m => m
  | .inst i => i.base

def Shape.numFacesOf (s : Shape V M B) : Nat := s.baseMesh.numFaces

def Shape.numVerticesOf (s : Shape V M B) : Nat := s.baseMesh.numVertices

/-! ## std::partition (fatbvhstrategy.cpp lines 196-200)

`std::partition` is modelled by the classic bidirectional two-pointer
algorithm used for it by the mainstream standard libraries: advance
`first` over elements satisfying the predicate, retreat `last` over
elements failing it, swap and continue.  (The C++ standard guarantees
only the partition property for `std::partition`; relative order inside
the two groups is not guaranteed — `std::stable_partition` would be the
stable variant.)  The recursion is written with explicit fuel so that it
is structural; `last - first` shrinks by at least one per step, so fuel
equal to the initial length of the range is always sufficient. -/

def partitionLoop (p : α → Bool) (d : α) : Nat → List α → Nat → Nat → List α × Nat
  | 0, l, first, _ => (l, first)
  | fuel + 1, l, first, last =>
    if first < last then
      if p (l.getD first d) then
        partitionLoop p d fuel l (first + 1) last
      else if p (l.getD (last - 1) d) then
        partitionLoop p d fuel
          ((l.set first (l.getD (last - 1) d)).set (last - 1) (l.getD first d))
          (first + 1) (last - 1)
      else
        partitionLoop p d fuel l first (last - 1)
    else (l, first)

/-- `std::partition(shapes.begin(), shapes.end(), pred)` over a whole
list; returns the partitioned list together with the boundary index
(the distance from begin to the returned iterator). -/
def partitionCpp (p : α → Bool) (d : α) (l : List α) : List α × Nat :=
  partitionLoop p d l.length l 0 l.length

/-- Lines 194-200: copy `world.shapes_` into a working vector and
partition non-instances to the front. -/
def reorderedShapes (d : Shape V M B) (w : List (Shape V M B)) : List (Shape V M B) :=
  (partitionCpp (fun s => !s.is_instance) d w).1

/-! ## Per-shape start offsets (lines 207-228)

`mesh_faces_start_idx[i]` / `mesh_vertices_start_idx[i]` are running sums
of the face / vertex counts of the reordered shapes (instances counted
through their base mesh). -/

def startsAux (f : α → Nat) : List α → Nat → List Nat
  | [], _ => []
  | s :: rest, acc => acc :: startsAux f rest (acc + f s)

def facesStartIdx (shapes : List (Shape V M B)) : List Nat :=
  startsAux Shape.numFacesOf shapes 0

def verticesStartIdx (shapes : List (Shape V M B)) : List Nat :=
  startsAux Shape.numVerticesOf shapes 0

/-- Sum of `f` over the first `k` elements. -/
def sumBelow (f : α → Nat) (l : List α) (k : Nat) : Nat :=
  ((l.take k).map f).sum

/-- `numfaces` / `numvertices`: total count over all shapes. -/
def totalCount (f : α → Nat) (l : List α) : Nat := (l.map f).sum

/-! ## Buffer writes

A mapped device buffer (or host std::vector) is embedded as a function
from index to value; a loop `for j in [0,n): buf[off+j] = f j` becomes
`writeRange`. -/

def writeRange {α : Type _} (g : Nat → α) (off n : Nat) (f : Nat → α) : Nat → α :=
  (List.range n).foldl (fun acc j => Function.update acc (off + j) (f j)) g

/-- One chunk of writes per list element, each chunk starting where the
previous one ended — the shape loops of Preprocess, whose offsets are
exactly the running sums above. -/
def scatterAux (cnt : α → Nat) (val : α → Nat → β) : List α → (Nat → β) → Nat → (Nat → β)
  | [], g, _ => g
  | s :: rest, g, off =>
    scatterAux cnt val rest (writeRange g off (cnt s) (val s)) (off + cnt s)

/-! ## The bounds pass (lines 236-272) -/

/-- The bound written for face j of a shape: a mesh delivers world-space
bounds directly (`GetFaceBounds(j, false, ...)`, line 244); for an
instance the object-space bounds of the base mesh are transformed by the
instance's forward matrix (`transform_bbox(tmp, m)`, lines 260-267). -/
def boundsValue (transform_bbox : B → M → B) (s : Shape V M B) (j : Nat) : B :=
  match s with
  | .mesh m => m.faceBounds j false
  | .inst i => transform_bbox (i.base.faceBounds j true) i.transform

def boundsPass (transform_bbox : B → M → B) (shapes : List (Shape V M B))
    (g : Nat → B) : Nat → B :=
  scatterAux Shape.numFacesOf (boundsValue transform_bbox) shapes g 0

/-! ## The vertex pass (lines 290-348) -/

/-- The vertex written at `mesh_vertices_start_idx[i] + j`: the mesh's
object-space vertex multiplied by the shape's own transform —
`mesh->GetTransform(m, minv)` for a mesh (line 316),
`instance->GetTransform(m, minv)` for an instance (line 335). -/
def vertexValue (transform_point : V → M → V) (s : Shape V M B) (j : Nat) : V :=
  match s with
  | .mesh m => transform_point (m.vertexData j) m.transform
  | .inst i => transform_point (i.base.vertexData j) i.transform

def vertexPass (transform_point : V → M → V) (shapes : List (Shape V M B))
    (g : Nat → V) : Nat → V :=
  scatterAux Shape.numVerticesOf (vertexValue transform_point) shapes g 0

/-! ## The face pass (lines 350-425) -/

/-- The Face record written to the device face buffer (struct at lines
352-364): three absolute vertex indices, originating shape index,
primitive id within the mesh, and the zero-initialized counter. -/
structure FlatFace where
  idx0 : Nat
  idx1 : Nat
  idx2 : Nat
  shapeidx : Nat
  id : Nat
  cnt : Nat
deriving DecidableEq

/-- `std::upper_bound(begin, end, x)` on a sorted Nat range: the index of
the first element greater than x (the length if there is none).  The
source calls it on the sorted vector `mesh_faces_start_idx`
(line 388). -/
def upperBound (l : List Nat) (x : Nat) : Nat :=
  match l with
  | [] => 0
  | v :: rest => if x < v then 0 else upperBound rest x + 1

/-- Body of the face loop (lines 383-419) at output position i:
look up the original face index through the BVH reordering, find the
owning shape by upper_bound on `mesh_faces_start_idx`, rebase the face's
vertex indices by `mesh_vertices_start_idx[shapeidx]`.  The Nat
subtraction `indextolook4 - start[shapeidx]` agrees with the C int
subtraction because upper_bound guarantees `start[shapeidx] <=
indextolook4` (proved below). -/
def packFace (shapes : List (Shape V M B)) (d : Shape V M B)
    (reordering : Nat → Nat) (i : Nat) : FlatFace :=
  let indextolook4 := reordering i
  let fstarts := facesStartIdx shapes
  let shapeidx := upperBound fstarts indextolook4 - 1
  let mesh := (shapes.getD shapeidx d).baseMesh
  let faceidx := indextolook4 - fstarts.getD shapeidx 0
  let mystartidx := (verticesStartIdx shapes).getD shapeidx 0
  let mf := mesh.faceData faceidx
  { idx0 := mf.idx0 + mystartidx
    idx1 := mf.idx1 + mystartidx
    idx2 := mf.idx2 + mystartidx
    shapeidx := shapeidx
    id := faceidx
    cnt := 0 }

def facePass (shapes : List (Shape V M B)) (d : Shape V M B)
    (reordering : Nat → Nat) (g : Nat → FlatFace) : Nat → FlatFace :=
  writeRange g 0 (totalCount Shape.numFacesOf shapes) (packFace shapes d reordering)

/-! ## Device buffers and the preprocessing state machine

The compute layer is embedded as a small allocator: `CreateBuffer` hands
out a buffer with a fresh id and records it as live, `DeleteBuffer`
removes the buffer from the live list.  A `Calc::Buffer*` held by the
strategy is an `Option Buffer`; a dangling pointer is a `some b` whose
`b` is no longer in the live list (the source never nulls the GpuData
pointers after `DeleteBuffer`). -/

structure Buffer where
  bid : Nat
  size : Nat
deriving DecidableEq

structure Device where
  maxAllocSize : Nat
  nextId : Nat
  live : List Buffer
deriving DecidableEq

def createBuffer (d : Device) (sz : Nat) : Device × Buffer :=
  let b : Buffer := { bid := d.nextId, size := sz }
  ({ d with nextId := d.nextId + 1, live := b :: d.live }, b)

def deleteBuffer (d : Device) (ob : Option Buffer) : Device :=
  match ob with
  | none => d
  | some b => { d with live := d.live.filter (fun x => decide (x ≠ b)) }

/-- The pointers of `FatBvhStrategy::GpuData` that name device buffers.
The five primary buffers plus the traversal stack.  (The GpuData
constructor, lines 82-90, initializes the five primary pointers to null
but leaves `stack` uninitialized; a freshly constructed strategy is
modelled with all six set to `none`.) -/
structure GpuData where
  bvh : Option Buffer
  vertices : Option Buffer
  faces : Option Buffer
  shapes : Option Buffer
  raycnt : Option Buffer
  stack : Option Buffer
deriving DecidableEq

/-- The host-side BVH is external (accelerator/bvh.h); the strategy only
consumes its `height()` after `Build`, so that is all the record holds
for the lifecycle claims. -/
structure Bvh where
  height : Nat
deriving DecidableEq

structure Strategy where
  dev : Device
  m_bvh : Option Bvh
  gpudata : GpuData
deriving DecidableEq

/-- What Preprocess reads from the world and from the external BVH
builder / translator: the change flags of line 154, and the sizes that
parametrize the buffer creations.  `bvhHeight` is the `height()` the
external `Bvh::Build` reports for this world's bounds; `numnodes` is
`translator.nodes_.size()`. -/
structure WorldDesc where
  hasChanged : Bool
  stateChange : Nat
  bvhHeight : Nat
  numshapes : Nat
  numvertices : Nat
  numfaces : Nat
  numnodes : Nat
deriving DecidableEq

/-- Byte sizes of the C types the buffer sizes are computed from
(sizeof(FatNodeBvhTranslator::Node), sizeof(float3), sizeof(Face),
sizeof(ShapeData), sizeof(int)).  They live outside the strategy source;
theorems that depend on a concrete value (sizeof(int) = 4 on every
platform this code targets) take it as a hypothesis. -/
structure SizeofSpec where
  nodeSz : Nat
  float3Sz : Nat
  faceSz : Nat
  shapeDataSz : Nat
  intSz : Nat
deriving DecidableEq

def kWorkGroupSize : Nat := 64
def kMaxStackSize : Nat := 48
def kMaxBatchSize : Nat := 1024 * 1024

/-- The two fatal Preprocess errors (ExceptionImpl throws at lines 170
and 280): "fatbvh accelerator can't allocate enough stack memory, try
using bvh instead" and "fatbvh accelerator can cause stack overflow for
this scene, try using bvh instead". -/
inductive PreprocessError where
  | insufficientStack
  | stackOverflowRisk
deriving DecidableEq

/-- Lines 158-162: release the five primary buffers (the pointers are
not nulled). -/
def deletePrimary (d : Device) (g : GpuData) : Device :=
  deleteBuffer (deleteBuffer (deleteBuffer (deleteBuffer
    (deleteBuffer d g.bvh) g.vertices) g.faces) g.shapes) g.raycnt

/-- The device state after the conditional release at lines 156-163: the
five primary buffers are deleted only when a BVH is installed. -/
def rebuildDev (st : Strategy) : Device :=
  if st.m_bvh.isSome then deletePrimary st.dev st.gpudata else st.dev

/-- `FatBvhStrategy::Preprocess` (lines 150-439), restricted to its
observable strategy state: BVH handle, device allocator and the GpuData
pointers.  The result carries the strategy state at exit — on a throw
this is the partial state at the throw site, since the source performs
no cleanup beyond what is written inline.

Control flow of the source:
1. line 154: rebuild iff no BVH yet, or the world changed, or any shape
   state change is reported (kStateChangeNone is 0);
2. lines 156-163: if a BVH is installed, delete the five primary buffers;
3. lines 165-171: throw if `max_alloc_size <= kMaxBatchSize *
   kMaxStackSize * sizeof(int)`;
4. lines 191/274: build the new BVH (height comes from the external
   builder);
5. lines 277-281: if `height() >= kMaxStackSize`, reset the BVH to null
   and throw;
6. lines 288-434: create the bvh, vertices, faces, shapes, raycnt
   buffers and a new stack buffer of `kMaxBatchSize * kMaxStackSize`
   bytes (no sizeof(int) factor); the previous stack buffer is not
   deleted. -/
def preprocess (sz : SizeofSpec) (st : Strategy) (w : WorldDesc) :
    Strategy × Option PreprocessError :=
  if st.m_bvh.isSome = true ∧ w.hasChanged = false ∧ w.stateChange = 0 then
    (st, none)
  else
    if (rebuildDev st).maxAllocSize ≤ kMaxBatchSize * kMaxStackSize * sz.intSz then
      ({ st with dev := rebuildDev st }, some PreprocessError.insufficientStack)
    else
      if kMaxStackSize ≤ w.bvhHeight then
        ({ st with dev := rebuildDev st, m_bvh := none },
         some PreprocessError.stackOverflowRisk)
      else
        let r1 := createBuffer (rebuildDev st) (w.numnodes * sz.nodeSz)
        let r2 := createBuffer r1.1 (w.numvertices * sz.float3Sz)
        let r3 := createBuffer r2.1 (w.numfaces * sz.faceSz)
        let r4 := createBuffer r3.1 (w.numshapes * sz.shapeDataSz)
        let r5 := createBuffer r4.1 sz.intSz
        let r6 := createBuffer r5.1 (kMaxBatchSize * kMaxStackSize)
        ({ dev := r6.1, m_bvh := some { height := w.bvhHeight },
           gpudata := { bvh := some r1.2, vertices := some r2.2, faces := some r3.2,
                        shapes := some r4.2, raycnt := some r5.2, stack := some r6.2 } },
         none)

/-- The strategy state a successful rebuild leaves behind (the else
branch of the height check, lines 283-437). -/
def successState (sz : SizeofSpec) (st : Strategy) (w : WorldDesc) : Strategy :=
  let r1 := createBuffer (rebuildDev st) (w.numnodes * sz.nodeSz)
  let r2 := createBuffer r1.1 (w.numvertices * sz.float3Sz)
  let r3 := createBuffer r2.1 (w.numfaces * sz.faceSz)
  let r4 := createBuffer r3.1 (w.numshapes * sz.shapeDataSz)
  let r5 := createBuffer r4.1 sz.intSz
  let r6 := createBuffer r5.1 (kMaxBatchSize * kMaxStackSize)
  { dev := r6.1, m_bvh := some { height := w.bvhHeight },
    gpudata := { bvh := some r1.2, vertices := some r2.2, faces := some r3.2,
                 shapes := some r4.2, raycnt := some r5.2, stack := some r6.2 } }

/-! ## Query-time stack management (lines 441-450, 474-483, 507-516,
540-549)

All four query entry points perform the identical stack check with
N = numrays (scalar variants) or N = maxrays (indirect variants). -/

/-- `size_t stack_size = 4 * numrays * kMaxStackSize;` — numrays is a
std::uint32_t, so the whole product is computed in 32-bit unsigned
arithmetic (on every platform with 32-bit unsigned int) and wraps modulo
2^32 before the widening assignment to size_t. -/
def requiredStackBytes (n : Nat) : Nat :=
  (4 * n * kMaxStackSize) % 2 ^ 32

/-- The stack resize performed on entry to each query: if the required
size exceeds the current stack buffer's size, the stack is deleted and a
new one of the required size is created.  The returned Bool records
whether a reallocation happened. -/
def queryStackResize (dev : Device) (stack : Buffer) (n : Nat) :
    Device × Buffer × Bool :=
  if stack.size < requiredStackBytes n then
    let dev1 := deleteBuffer dev (some stack)
    let r := createBuffer dev1 (requiredStackBytes n)
    (r.1, r.2, true)
  else (dev, stack, false)

/-! ## Concrete example inputs

Small closed scenes and strategy states used to instantiate the theorems
below at concrete inputs.  The geometry carriers are instantiated with
V = M = B = Nat and injective pairing functions for transform_point /
transform_bbox, so that every write is traceable to the shape and
transform it came from. -/

def exMesh1 : Mesh Nat Nat Nat :=
  { numVertices := 3, numFaces := 2,
    vertexData := fun j => 100 + j,
    faceData := fun f => { idx0 := f, idx1 := f + 1, idx2 := f + 2 },
    transform := 2,
    faceBounds := fun j b => if b then 40 + j else 10 + j }

def exMesh2 : Mesh Nat Nat Nat :=
  { numVertices := 2, numFaces := 1,
    vertexData := fun j => 200 + j,
    faceData := fun _ => { idx0 := 0, idx1 := 1, idx2 := 0 },
    transform := 3,
    faceBounds := fun j b => if b then 20 + j else 30 + j }

def exMesh3 : Mesh Nat Nat Nat :=
  { numVertices := 4, numFaces := 1,
    vertexData := fun j => 300 + j,
    faceData := fun _ => { idx0 := 0, idx1 := 1, idx2 := 2 },
    transform := 6,
    faceBounds := fun j b => if b then 50 + j else 60 + j }

def exMesh4 : Mesh Nat Nat Nat :=
  { numVertices := 5, numFaces := 1,
    vertexData := fun j => 400 + j,
    faceData := fun _ => { idx0 := 1, idx1 := 2, idx2 := 3 },
    transform := 8,
    faceBounds := fun j b => if b then 70 + j else 80 + j }

def exInst : MeshInstance Nat Nat Nat := { base := exMesh2, transform := 5 }

/-- Default shape (the getD default; never actually selected by the
in-range accesses of the pipeline). -/
def exDefault : Shape Nat Nat Nat :=
  Shape.mesh
    { numVertices := 0, numFaces := 0,
      vertexData := fun _ => 0,
      faceData := fun _ => { idx0 := 0, idx1 := 0, idx2 := 0 },
      transform := 0,
      faceBounds := fun _ _ => 0 }

/-- A world with one mesh followed by one instance (already in
partitioned order, so `reorderedShapes` leaves it unchanged). -/
def exWorld : List (Shape Nat Nat Nat) := [Shape.mesh exMesh1, Shape.inst exInst]

/-- A world interleaving meshes and an instance, exercising the
instability of std::partition: mesh1, instance, mesh3, mesh4. -/
def exWorld4 : List (Shape Nat Nat Nat) :=
  [Shape.mesh exMesh1, Shape.inst exInst, Shape.mesh exMesh3, Shape.mesh exMesh4]

def exTransformPoint : Nat → Nat → Nat := fun v m => v * 1000 + m

def exTransformBbox : Nat → Nat → Nat := fun b m => b * 1000 + m

def exInitV : Nat → Nat := fun _ => 0

def exInitB : Nat → Nat := fun _ => 0

def exInitF : Nat → FlatFace :=
  fun _ => { idx0 := 0, idx1 := 0, idx2 := 0, shapeidx := 0, id := 0, cnt := 7 }

/-- 2 - i : the reordering used in the face-pass witness (a permutation
of the 3 total faces of exWorld). -/
def exPerm : Nat → Nat := fun i => 2 - i

def exSizeof : SizeofSpec :=
  { nodeSz := 64, float3Sz := 16, faceSz := 32, shapeDataSz := 80, intSz := 4 }

/-- A freshly constructed strategy on a device with a 1 GiB allocation
limit: no BVH, no buffers. -/
def exFreshStrategy : Strategy :=
  { dev := { maxAllocSize := 1073741824, nextId := 0, live := [] },
    m_bvh := none,
    gpudata := { bvh := none, vertices := none, faces := none,
                 shapes := none, raycnt := none, stack := none } }

/-- A strategy holding the state a successful Preprocess leaves behind:
a BVH and six live buffers with ids 0..5. -/
def exBuiltStrategy : Strategy :=
  { dev := { maxAllocSize := 1073741824, nextId := 6,
             live := [{ bid := 5, size := 50331648 }, { bid := 4, size := 4 },
                      { bid := 3, size := 80 }, { bid := 2, size := 32 },
                      { bid := 1, size := 48 }, { bid := 0, size := 64 }] },
    m_bvh := some { height := 3 },
    gpudata := { bvh := some { bid := 0, size := 64 },
                 vertices := some { bid := 1, size := 48 },
                 faces := some { bid := 2, size := 32 },
                 shapes := some { bid := 3, size := 80 },
                 raycnt := some { bid := 4, size := 4 },
                 stack := some { bid := 5, size := 50331648 } } }

/-- The same installed state on a device whose max_alloc_size equals the
threshold 1048576 * 48 * 4 exactly. -/
def exBoundaryStrategy : Strategy :=
  { exBuiltStrategy with
    dev := { exBuiltStrategy.dev with maxAllocSize := 201326592 } }

/-- The installed state on a device that can only allocate 1000 bytes. -/
def exLowAllocStrategy : Strategy :=
  { exBuiltStrategy with
    dev := { exBuiltStrategy.dev with maxAllocSize := 1000 } }

/-- A device and stack buffer as seen by a query entry point. -/
def exQDev : Device :=
  { maxAllocSize := 1073741824, nextId := 3, live := [{ bid := 0, size := 100 }] }

def exQStack : Buffer := { bid := 0, size := 100 }

/-- A changed world (forces a rebuild) whose BVH is shallow. -/
def exChangedWorld : WorldDesc :=
  { hasChanged := true, stateChange := 0, bvhHeight := 3,
    numshapes := 2, numvertices := 5, numfaces := 3, numnodes := 5 }

/-- A changed world whose external BVH build reports height 50. -/
def exDeepWorld : WorldDesc :=
  { exChangedWorld with bvhHeight := 50 }

/-! ## Helper lemmas -/

theorem getD_set_self {α : Type _} :
    ∀ (l : List α) (i : Nat) (a d : α), i < l.length → (l.set i a).getD i d = a := by
  intro l
  induction l with
  | nil => intro i a d h; simp at h
  | cons x t ih =>
    intro i a d h
    cases i with
    | zero => simp
    | succ m =>
      simp only [List.set_cons_succ, List.getD_cons_succ]
      exact ih m a d (by simpa using Nat.lt_of_succ_lt_succ h)

theorem getD_set_ne {α : Type _} :
    ∀ (l : List α) (i j : Nat) (a d : α), i ≠ j → (l.set i a).getD j d = l.getD j d := by
  intro l
  induction l with
  | nil => intro i j a d _; simp
  | cons x t ih =>
    intro i j a d hij
    cases i with
    | zero =>
      cases j with
      | zero => exact absurd rfl hij
      | succ m => simp
    | succ m =>
      cases j with
      | zero => simp
      | succ q =>
        simp only [List.set_cons_succ, List.getD_cons_succ]
        exact ih m q a d (fun h => hij (by rw [h]))

theorem getD_mem {α : Type _} :
    ∀ (l : List α) (i : Nat) (d : α), i < l.length → l.getD i d ∈ l := by
  intro l
  induction l with
  | nil => intro i d h; simp at h
  | cons x t ih =>
    intro i d h
    cases i with
    | zero => simp
    | succ m =>
      simp only [List.getD_cons_succ]
      exact List.mem_cons_of_mem x (ih m d (by simpa using Nat.lt_of_succ_lt_succ h))

theorem writeRange_succ {α : Type _} (g : Nat → α) (off n : Nat) (f : Nat → α) :
    writeRange g off (n + 1) f =
      Function.update (writeRange g off n f) (off + n) (f n) := by
  simp [writeRange, List.range_succ]

theorem writeRange_out {α : Type _} (g : Nat → α) (off : Nat) (f : Nat → α) :
    ∀ (n i : Nat), i < off ∨ off + n ≤ i → writeRange g off n f i = g i := by
  intro n
  induction n with
  | zero => intro i _; simp [writeRange]
  | succ m ih =>
    intro i h
    rw [writeRange_succ]
    rw [Function.update_noteq (by omega)]
    exact ih i (by omega)

theorem writeRange_in {α : Type _} (g : Nat → α) (off : Nat) (f : Nat → α) :
    ∀ (n j : Nat), j < n → writeRange g off n f (off + j) = f j := by
  intro n
  induction n with
  | zero => intro j h; omega
  | succ m ih =>
    intro j h
    rw [writeRange_succ]
    by_cases hj : j = m
    · subst hj; rw [Function.update_same]
    · rw [Function.update_noteq (by omega)]
      exact ih j (by omega)

theorem scatterAux_lt {α β : Type _} (cnt : α → Nat) (val : α → Nat → β) :
    ∀ (l : List α) (g : Nat → β) (off i : Nat), i < off →
      scatterAux cnt val l g off i = g i := by
  intro l
  induction l with
  | nil => intro g off i _; rfl
  | cons s rest ih =>
    intro g off i h
    show scatterAux cnt val rest (writeRange g off (cnt s) (val s)) (off + cnt s) i = g i
    rw [ih _ _ i (by omega)]
    exact writeRange_out g off (val s) (cnt s) i (Or.inl h)

theorem sumBelow_zero {α : Type _} (f : α → Nat) (l : List α) : sumBelow f l 0 = 0 := by
  simp [sumBelow]

theorem sumBelow_succ_cons {α : Type _} (f : α → Nat) (s : α) (rest : List α) (k : Nat) :
    sumBelow f (s :: rest) (k + 1) = f s + sumBelow f rest k := by
  simp [sumBelow]

theorem scatterAux_getD {α β : Type _} (cnt : α → Nat) (val : α → Nat → β) (dd : α) :
    ∀ (l : List α) (g : Nat → β) (off k j : Nat),
      k < l.length → j < cnt (l.getD k dd) →
      scatterAux cnt val l g off (off + sumBelow cnt l k + j) = val (l.getD k dd) j := by
  intro l
  induction l with
  | nil => intro g off k j hk _; simp at hk
  | cons s rest ih =>
    intro g off k j hk hj
    cases k with
    | zero =>
      show scatterAux cnt val rest (writeRange g off (cnt s) (val s)) (off + cnt s)
            (off + sumBelow cnt (s :: rest) 0 + j) = val ((s :: rest).getD 0 dd) j
      rw [sumBelow_zero, Nat.add_zero]
      simp only [List.getD_cons_zero] at hj ⊢
      rw [scatterAux_lt cnt val rest _ _ _ (by omega)]
      exact writeRange_in g off (val s) (cnt s) j hj
    | succ m =>
      show scatterAux cnt val rest (writeRange g off (cnt s) (val s)) (off + cnt s)
            (off + sumBelow cnt (s :: rest) (m + 1) + j) = val ((s :: rest).getD (m + 1) dd) j
      simp only [List.getD_cons_succ] at hj ⊢
      have harr : off + sumBelow cnt (s :: rest) (m + 1) + j
          = (off + cnt s) + sumBelow cnt rest m + j := by
        rw [sumBelow_succ_cons]; omega
      rw [harr]
      exact ih _ _ m j (by simpa using Nat.lt_of_succ_lt_succ hk) hj

theorem startsAux_getD {α : Type _} (f : α → Nat) :
    ∀ (l : List α) (acc k : Nat), k < l.length →
      (startsAux f l acc).getD k 0 = acc + sumBelow f l k := by
  intro l
  induction l with
  | nil => intro acc k hk; simp at hk
  | cons s rest ih =>
    intro acc k hk
    cases k with
    | zero => simp [startsAux, sumBelow_zero]
    | succ m =>
      show (acc :: startsAux f rest (acc + f s)).getD (m + 1) 0
            = acc + sumBelow f (s :: rest) (m + 1)
      simp only [List.getD_cons_succ]
      rw [ih (acc + f s) m (by simpa using Nat.lt_of_succ_lt_succ hk), sumBelow_succ_cons]
      omega

theorem upperBound_getD_le :
    ∀ (l : List Nat) (x : Nat), 1 ≤ upperBound l x →
      l.getD (upperBound l x - 1) 0 ≤ x := by
  intro l
  induction l with
  | nil => intro x h; simp [upperBound] at h
  | cons v t ih =>
    intro x h
    by_cases hv : x < v
    · simp [upperBound, hv] at h
    · have hub : upperBound (v :: t) x = upperBound t x + 1 := by
        simp [upperBound, hv]
      rw [hub]
      cases hcase : upperBound t x with
      | zero => simpa using Nat.le_of_not_lt hv
      | succ m =>
        have : upperBound t x - 1 = m := by omega
        have hrec := ih x (by omega)
        rw [this] at hrec
        simpa using hrec

theorem upperBound_facesStart_pos (shapes : List (Shape V M B)) (x : Nat) :
    shapes ≠ [] → 1 ≤ upperBound (facesStartIdx shapes) x := by
  intro h
  cases shapes with
  | nil => exact absurd rfl h
  | cons s rest =>
    show 1 ≤ upperBound (0 :: startsAux Shape.numFacesOf rest (0 + Shape.numFacesOf s)) x
    simp [upperBound]

theorem totalCount_pos_ne_nil {α : Type _} (f : α → Nat) (l : List α) :
    0 < totalCount f l → l ≠ [] := by
  intro h hnil
  subst hnil
  simp [totalCount] at h

/-! ## Claim C1 — face pass -/

/-- Claim C1: for every world and every output position i in
[0, numfaces), the flattened face written at device position i during the
face pass satisfies `mesh_faces_start_idx[shapeidx] + id = permutation[i]`
(permutation being the BVH leaf-order index array), its three vertex
indices equal the base mesh's object-space face indices plus
`mesh_vertices_start_idx[shapeidx]`, and its cnt field is 0. -/
theorem c1_flat_face_fields (w : List (Shape V M B)) (dsh : Shape V M B)
    (shapes : List (Shape V M B)) (hs : shapes = reorderedShapes dsh w)
    (perm : Nat → Nat) (g : Nat → FlatFace) (i : Nat)
    (hi : i < totalCount Shape.numFacesOf shapes)
    (hp : perm i < totalCount Shape.numFacesOf shapes) :
    ∀ F : FlatFace, F = facePass shapes dsh perm g i →
      (facesStartIdx shapes).getD F.shapeidx 0 + F.id = perm i ∧
      F.idx0 = ((shapes.getD F.shapeidx dsh).baseMesh.faceData F.id).idx0
                 + (verticesStartIdx shapes).getD F.shapeidx 0 ∧
      F.idx1 = ((shapes.getD F.shapeidx dsh).baseMesh.faceData F.id).idx1
                 + (verticesStartIdx shapes).getD F.shapeidx 0 ∧
      F.idx2 = ((shapes.getD F.shapeidx dsh).baseMesh.faceData F.id).idx2
                 + (verticesStartIdx shapes).getD F.shapeidx 0 ∧
      F.cnt = 0 := by
  intro F hF
  have hne : shapes ≠ [] :=
    totalCount_pos_ne_nil Shape.numFacesOf shapes (by omega)
  have hub : 1 ≤ upperBound (facesStartIdx shapes) (perm i) :=
    upperBound_facesStart_pos shapes (perm i) hne
  have hle : (facesStartIdx shapes).getD
      (upperBound (facesStartIdx shapes) (perm i) - 1) 0 ≤ perm i :=
    upperBound_getD_le _ _ hub
  have hface : facePass shapes dsh perm g i = packFace shapes dsh perm i := by
    have h0 := writeRange_in g 0 (packFace shapes dsh perm)
      (totalCount Shape.numFacesOf shapes) i hi
    simpa using h0
  subst hF
  rw [hface]
  exact ⟨Nat.add_sub_cancel' hle, rfl, rfl, rfl, rfl⟩

/-- Witness for C1 on the concrete two-shape world with reordering
`i ↦ 2 - i`: position 0 receives original face 2, owned by the instance
(shapeidx 1, primitive id 0), with vertex indices rebased by
`mesh_vertices_start_idx[1] = 3`. -/
theorem c1_witness :
    (facesStartIdx exWorld).getD
        (facePass exWorld exDefault exPerm exInitF 0).shapeidx 0
      + (facePass exWorld exDefault exPerm exInitF 0).id = exPerm 0 ∧
    (facePass exWorld exDefault exPerm exInitF 0).idx0 =
      ((exWorld.getD (facePass exWorld exDefault exPerm exInitF 0).shapeidx
          exDefault).baseMesh.faceData
        (facePass exWorld exDefault exPerm exInitF 0).id).idx0
      + (verticesStartIdx exWorld).getD
          (facePass exWorld exDefault exPerm exInitF 0).shapeidx 0 ∧
    (facePass exWorld exDefault exPerm exInitF 0).idx1 =
      ((exWorld.getD (facePass exWorld exDefault exPerm exInitF 0).shapeidx
          exDefault).baseMesh.faceData
        (facePass exWorld exDefault exPerm exInitF 0).id).idx1
      + (verticesStartIdx exWorld).getD
          (facePass exWorld exDefault exPerm exInitF 0).shapeidx 0 ∧
    (facePass exWorld exDefault exPerm exInitF 0).idx2 =
      ((exWorld.getD (facePass exWorld exDefault exPerm exInitF 0).shapeidx
          exDefault).baseMesh.faceData
        (facePass exWorld exDefault exPerm exInitF 0).id).idx2
      + (verticesStartIdx exWorld).getD
          (facePass exWorld exDefault exPerm exInitF 0).shapeidx 0 ∧
    (facePass exWorld exDefault exPerm exInitF 0).cnt = 0 :=
  c1_flat_face_fields exWorld exDefault exWorld rfl exPerm exInitF 0
    (by decide) (by decide) _ rfl

/-! ## Claim C2 — vertex pass -/

/-- Claim C2: for every shape k and every vertex index j of its (base)
mesh, the flattened vertex written at offset
`mesh_vertices_start_idx[k] + j` equals the object-space vertex j
transformed by shape k's own world transform: the mesh's transform for a
mesh shape, the instance's transform (not the base mesh's) for an
instance shape. -/
theorem c2_vertex_world_transform (tp : V → M → V) (w : List (Shape V M B))
    (dsh : Shape V M B) (shapes : List (Shape V M B))
    (hs : shapes = reorderedShapes dsh w) (g : Nat → V) (k j : Nat)
    (hk : k < shapes.length) (hj : j < (shapes.getD k dsh).numVerticesOf) :
    vertexPass tp shapes g ((verticesStartIdx shapes).getD k 0 + j) =
      match shapes.getD k dsh with
      | .mesh m => tp (m.vertexData j) m.transform
      | .inst ins => tp (ins.base.vertexData j) ins.transform := by
  have hstart : (verticesStartIdx shapes).getD k 0
      = sumBelow Shape.numVerticesOf shapes k := by
    have h0 := startsAux_getD Shape.numVerticesOf shapes 0 k hk
    simpa [verticesStartIdx] using h0
  have hidx : (verticesStartIdx shapes).getD k 0 + j
      = 0 + sumBelow Shape.numVerticesOf shapes k + j := by
    rw [hstart]; omega
  rw [hidx]
  have hmain := scatterAux_getD Shape.numVerticesOf (vertexValue tp) dsh
    shapes g 0 k j hk hj
  rw [show vertexPass tp shapes g = scatterAux Shape.numVerticesOf
        (vertexValue tp) shapes g 0 from rfl]
  rw [hmain]
  cases shapes.getD k dsh with
  | mesh m => rfl
  | inst ins => rfl

/-- Witness for C2: shape 1 of the concrete world is the instance; its
vertex 0 lands at offset `mesh_vertices_start_idx[1] + 0 = 3` and equals
the base mesh's vertex 200 transformed by the instance's transform 5. -/
theorem c2_witness :
    vertexPass exTransformPoint exWorld exInitV 3 = 200005 := by
  have h := c2_vertex_world_transform exTransformPoint exWorld exDefault exWorld
    rfl exInitV 1 0 (by decide) (by decide)
  have h2 : (verticesStartIdx exWorld).getD 1 0 + 0 = 3 := by decide
  rw [h2] at h
  exact h.trans (by decide)

/-! ## Claim C3 — bounds pass -/

/-- Claim C3: during bounds building, the bound of face j of shape k is
written to global index `mesh_faces_start_idx[k] + j`; for a mesh shape
the world-space face bounds are obtained directly from the mesh
(`GetFaceBounds(j, false)`), and for an instance shape the bound equals
the base mesh's object-space face bounds (`GetFaceBounds(j, true)`)
transformed by the instance's forward matrix m (`transform_bbox`). -/
theorem c3_face_bounds (tb : B → M → B) (w : List (Shape V M B))
    (dsh : Shape V M B) (shapes : List (Shape V M B))
    (hs : shapes = reorderedShapes dsh w) (g : Nat → B) (k j : Nat)
    (hk : k < shapes.length) (hj : j < (shapes.getD k dsh).numFacesOf) :
    boundsPass tb shapes g ((facesStartIdx shapes).getD k 0 + j) =
      match shapes.getD k dsh with
      | .mesh m => m.faceBounds j false
      | .inst ins => tb (ins.base.faceBounds j true) ins.transform := by
  have hstart : (facesStartIdx shapes).getD k 0
      = sumBelow Shape.numFacesOf shapes k := by
    have h0 := startsAux_getD Shape.numFacesOf shapes 0 k hk
    simpa [facesStartIdx] using h0
  have hidx : (facesStartIdx shapes).getD k 0 + j
      = 0 + sumBelow Shape.numFacesOf shapes k + j := by
    rw [hstart]; omega
  rw [hidx]
  have hmain := scatterAux_getD Shape.numFacesOf (boundsValue tb) dsh
    shapes g 0 k j hk hj
  rw [show boundsPass tb shapes g = scatterAux Shape.numFacesOf
        (boundsValue tb) shapes g 0 from rfl]
  rw [hmain]
  cases shapes.getD k dsh with
  | mesh m => rfl
  | inst ins => rfl

/-- Witness for C3: face 0 of the instance lands at global index
`mesh_faces_start_idx[1] + 0 = 2` and equals the base mesh's object-space
bound 20 transformed by the instance transform 5. -/
theorem c3_witness :
    boundsPass exTransformBbox exWorld exInitB 2 = 20005 := by
  have h := c3_face_bounds exTransformBbox exWorld exDefault exWorld
    rfl exInitB 1 0 (by decide) (by decide)
  have h2 : (facesStartIdx exWorld).getD 1 0 + 0 = 2 := by decide
  rw [h2] at h
  exact h.trans (by decide)

/-! ## Claim C4 — shape partition -/

/-- Loop invariant of the two-pointer std::partition: positions left of
`first` already satisfy the predicate, positions right of `last` already
fail it; the result is a partitioned list whose elements all come from
the input. -/
theorem partitionLoop_spec {α : Type _} (p : α → Bool) (d : α) :
    ∀ (fuel : Nat) (l : List α) (first last : Nat) (l' : List α) (bd : Nat),
      last ≤ l.length → first ≤ last → last - first ≤ fuel →
      (∀ i, i < first → p (l.getD i d) = true) →
      (∀ i, last ≤ i → i < l.length → p (l.getD i d) = false) →
      partitionLoop p d fuel l first last = (l', bd) →
      l'.length = l.length ∧ first ≤ bd ∧ bd ≤ last ∧
      (∀ i, i < bd → p (l'.getD i d) = true) ∧
      (∀ i, bd ≤ i → i < l'.length → p (l'.getD i d) = false) ∧
      (∀ a, a ∈ l' → a ∈ l) := by
  intro fuel
  induction fuel with
  | zero =>
    intro l first last l' bd hlen hfl hfuel h1 h2 heq
    have hfl2 : first = last := by omega
    simp only [partitionLoop] at heq
    cases heq
    exact ⟨rfl, Nat.le_refl _, hfl, fun i hi => h1 i hi,
      fun i hbd hil => h2 i (by omega) hil, fun a ha => ha⟩
  | succ f ih =>
    intro l first last l' bd hlen hfl hfuel h1 h2 heq
    by_cases hlt : first < last
    · simp only [partitionLoop, if_pos hlt] at heq
      by_cases hp1 : p (l.getD first d) = true
      · rw [if_pos hp1] at heq
        have hres := ih l (first + 1) last l' bd hlen (by omega) (by omega)
          (fun i hi => by
            rcases Nat.lt_succ_iff_lt_or_eq.mp hi with h | h
            · exact h1 i h
            · rw [h]; exact hp1)
          h2 heq
        exact ⟨hres.1, by omega, hres.2.2.1, hres.2.2.2.1, hres.2.2.2.2.1,
          hres.2.2.2.2.2⟩
      · rw [if_neg hp1] at heq
        have hp1' : p (l.getD first d) = false := by
          cases h : p (l.getD first d) with
          | false => rfl
          | true => exact absurd h hp1
        by_cases hp2 : p (l.getD (last - 1) d) = true
        · rw [if_pos hp2] at heq
          have hne : first ≠ last - 1 := by
            intro h
            rw [h] at hp1'
            rw [hp1'] at hp2
            cases hp2
          have hflt : first < last - 1 := by omega
          have hfirstlen : first < l.length := by omega
          have hlastlen : last - 1 < l.length := by omega
          have hlen2 : ((l.set first (l.getD (last - 1) d)).set (last - 1)
              (l.getD first d)).length = l.length := by simp
          have hres := ih ((l.set first (l.getD (last - 1) d)).set (last - 1)
              (l.getD first d)) (first + 1) (last - 1) l' bd
            (by rw [hlen2]; omega) (by omega) (by omega)
            (fun i hi => by
              rcases Nat.lt_succ_iff_lt_or_eq.mp hi with h | h
              · rw [getD_set_ne _ _ _ _ _ (by omega), getD_set_ne _ _ _ _ _ (by omega)]
                exact h1 i h
              · rw [h, getD_set_ne _ _ _ _ _ (by omega),
                  getD_set_self _ _ _ _ (by simpa using hfirstlen)]
                exact hp2)
            (fun i hbd hil => by
              rw [hlen2] at hil
              by_cases hi2 : i = last - 1
              · rw [hi2, getD_set_self _ _ _ _ (by simpa using hlastlen)]
                exact hp1'
              · rw [getD_set_ne _ _ _ _ _ (fun h => hi2 h.symm),
                  getD_set_ne _ _ _ _ _ (by omega)]
                exact h2 i (by omega) hil)
            heq
          refine ⟨by rw [hres.1, hlen2], by omega, by omega, hres.2.2.2.1,
            hres.2.2.2.2.1, ?_⟩
          intro a ha
          have ha2 := hres.2.2.2.2.2 a ha
          rcases List.mem_or_eq_of_mem_set ha2 with h | h
          · rcases List.mem_or_eq_of_mem_set h with h' | h'
            · exact h'
            · rw [h']; exact getD_mem l (last - 1) d hlastlen
          · rw [h]; exact getD_mem l first d hfirstlen
        · rw [if_neg hp2] at heq
          have hp2' : p (l.getD (last - 1) d) = false := by
            cases h : p (l.getD (last - 1) d) with
            | false => rfl
            | true => exact absurd h hp2
          have hres := ih l first (last - 1) l' bd (by omega) (by omega) (by omega)
            h1
            (fun i hbd hil => by
              by_cases hi2 : i = last - 1
              · rw [hi2]; exact hp2'
              · exact h2 i (by omega) hil)
            heq
          exact ⟨hres.1, hres.2.1, by omega, hres.2.2.2.1, hres.2.2.2.2.1,
            hres.2.2.2.2.2⟩
    · simp only [partitionLoop, if_neg hlt] at heq
      cases heq
      exact ⟨rfl, Nat.le_refl _, hfl, fun i hi => h1 i hi,
        fun i hbd hil => h2 i (by omega) hil, fun a ha => ha⟩

/-- Counterexample to claim C4 as stated: the source uses std::partition
(line 196), whose two-pointer algorithm does not preserve the relative
order inside the groups.  On the world [mesh(3 verts), instance,
mesh(4 verts), mesh(5 verts)] the partitioned list carries the meshes in
order 3,5,4 — not the original 3,4,5 the claim's stability would give
(the right-hand side below is the stable reordering the claim asserts,
observed through the vertex counts). -/
theorem c4_counterexample :
    ((partitionCpp (fun s : Shape Nat Nat Nat => !s.is_instance)
          exDefault exWorld4).1.map Shape.numVerticesOf)
      ≠ ((exWorld4.filter (fun s => !s.is_instance)
          ++ exWorld4.filter (fun s => s.is_instance)).map Shape.numVerticesOf) := by
  decide

/-- Claim C4 (amended): the reordering performed by Preprocess places
every non-instance shape before every instance shape (with the partition
boundary separating the two groups) and draws its elements from the
original shape list; the relative order inside each group is whatever
std::partition produces and is not in general the original one. -/
theorem c4_partition_amended (w : List (Shape V M B)) (dsh : Shape V M B) :
    ∀ (l' : List (Shape V M B)) (bd : Nat),
      partitionCpp (fun s => !s.is_instance) dsh w = (l', bd) →
      l'.length = w.length ∧
      (∀ i, i < bd → (l'.getD i dsh).is_instance = false) ∧
      (∀ i, bd ≤ i → i < l'.length → (l'.getD i dsh).is_instance = true) ∧
      (∀ a, a ∈ l' → a ∈ w) := by
  intro l' bd heq
  simp only [partitionCpp] at heq
  have h := partitionLoop_spec (fun s => !s.is_instance) dsh w.length w 0
    w.length l' bd (Nat.le_refl _) (Nat.zero_le _) (by omega)
    (fun i hi => absurd hi (Nat.not_lt_zero i))
    (fun i ha hb => absurd hb (by omega))
    heq
  refine ⟨h.1, ?_, ?_, h.2.2.2.2.2⟩
  · intro i hi
    have := h.2.2.2.1 i hi
    simpa using this
  · intro i hbd hil
    have := h.2.2.2.2.1 i hbd hil
    simpa using this

/-- Witness for the amended C4 on the four-shape world: position 0 of
the partitioned list is a non-instance, position 3 (past the boundary 3)
is an instance. -/
theorem c4_witness :
    ((partitionCpp (fun s : Shape Nat Nat Nat => !s.is_instance)
        exDefault exWorld4).1.getD 0 exDefault).is_instance = false ∧
    ((partitionCpp (fun s : Shape Nat Nat Nat => !s.is_instance)
        exDefault exWorld4).1.getD 3 exDefault).is_instance = true := by
  have h := c4_partition_amended exWorld4 exDefault
    (partitionCpp (fun s => !s.is_instance) exDefault exWorld4).1
    (partitionCpp (fun s => !s.is_instance) exDefault exWorld4).2 rfl
  exact ⟨h.2.1 0 (by decide), h.2.2.1 3 (by decide) (by decide)⟩

/-! ## Device and Preprocess helper lemmas -/

theorem deleteBuffer_maxAlloc (d : Device) (ob : Option Buffer) :
    (deleteBuffer d ob).maxAllocSize = d.maxAllocSize := by
  cases ob <;> rfl

theorem deleteBuffer_nextId (d : Device) (ob : Option Buffer) :
    (deleteBuffer d ob).nextId = d.nextId := by
  cases ob <;> rfl

theorem deletePrimary_maxAlloc (d : Device) (g : GpuData) :
    (deletePrimary d g).maxAllocSize = d.maxAllocSize := by
  simp [deletePrimary, deleteBuffer_maxAlloc]

theorem deletePrimary_nextId (d : Device) (g : GpuData) :
    (deletePrimary d g).nextId = d.nextId := by
  simp [deletePrimary, deleteBuffer_nextId]

theorem rebuildDev_maxAlloc (st : Strategy) :
    (rebuildDev st).maxAllocSize = st.dev.maxAllocSize := by
  unfold rebuildDev
  split
  · exact deletePrimary_maxAlloc _ _
  · rfl

theorem rebuildDev_nextId (st : Strategy) :
    (rebuildDev st).nextId = st.dev.nextId := by
  unfold rebuildDev
  split
  · exact deletePrimary_nextId _ _
  · rfl

theorem notMem_deleteBuffer_self (d : Device) (b : Buffer) :
    b ∉ (deleteBuffer d (some b)).live := by
  intro h
  simp only [deleteBuffer, List.mem_filter] at h
  have := h.2
  simp at this

theorem notMem_deleteBuffer_of (d : Device) (ob : Option Buffer) (x : Buffer)
    (h : x ∉ d.live) : x ∉ (deleteBuffer d ob).live := by
  intro hx
  cases ob with
  | none => exact h hx
  | some c =>
    simp only [deleteBuffer, List.mem_filter] at hx
    exact h hx.1

theorem mem_deleteBuffer_of_ne (d : Device) (ob : Option Buffer) (x : Buffer)
    (hx : x ∈ d.live) (h : ∀ c, ob = some c → x ≠ c) :
    x ∈ (deleteBuffer d ob).live := by
  cases ob with
  | none => exact hx
  | some c =>
    simp only [deleteBuffer, List.mem_filter]
    exact ⟨hx, by simpa using h c rfl⟩

theorem notMem_deletePrimary (d : Device) (g : GpuData) (b : Buffer)
    (h : g.bvh = some b ∨ g.vertices = some b ∨ g.faces = some b ∨
         g.shapes = some b ∨ g.raycnt = some b) :
    b ∉ (deletePrimary d g).live := by
  unfold deletePrimary
  rcases h with h | h | h | h | h
  · rw [h]
    exact notMem_deleteBuffer_of _ _ _ (notMem_deleteBuffer_of _ _ _
      (notMem_deleteBuffer_of _ _ _ (notMem_deleteBuffer_of _ _ _
        (notMem_deleteBuffer_self d b))))
  · rw [h]
    exact notMem_deleteBuffer_of _ _ _ (notMem_deleteBuffer_of _ _ _
      (notMem_deleteBuffer_of _ _ _ (notMem_deleteBuffer_self _ b)))
  · rw [h]
    exact notMem_deleteBuffer_of _ _ _ (notMem_deleteBuffer_of _ _ _
      (notMem_deleteBuffer_self _ b))
  · rw [h]
    exact notMem_deleteBuffer_of _ _ _ (notMem_deleteBuffer_self _ b)
  · rw [h]
    exact notMem_deleteBuffer_self _ b

theorem mem_deletePrimary_of_ne (d : Device) (g : GpuData) (x : Buffer)
    (hx : x ∈ d.live)
    (h1 : ∀ c, g.bvh = some c → x ≠ c)
    (h2 : ∀ c, g.vertices = some c → x ≠ c)
    (h3 : ∀ c, g.faces = some c → x ≠ c)
    (h4 : ∀ c, g.shapes = some c → x ≠ c)
    (h5 : ∀ c, g.raycnt = some c → x ≠ c) :
    x ∈ (deletePrimary d g).live := by
  unfold deletePrimary
  exact mem_deleteBuffer_of_ne _ _ _ (mem_deleteBuffer_of_ne _ _ _
    (mem_deleteBuffer_of_ne _ _ _ (mem_deleteBuffer_of_ne _ _ _
      (mem_deleteBuffer_of_ne _ _ _ hx h1) h2) h3) h4) h5

theorem not_skip_of_trigger (st : Strategy) (w : WorldDesc)
    (hr : st.m_bvh = none ∨ w.hasChanged = true ∨ w.stateChange ≠ 0) :
    ¬(st.m_bvh.isSome = true ∧ w.hasChanged = false ∧ w.stateChange = 0) := by
  rintro ⟨h1, h2, h3⟩
  rcases hr with h | h | h
  · rw [h] at h1; simp at h1
  · rw [h] at h2; cases h2
  · exact h h3

/-- Line 154: when nothing changed and a BVH is installed, Preprocess is
a no-op. -/
theorem preprocess_skip (sz : SizeofSpec) (st : Strategy) (w : WorldDesc)
    (h1 : st.m_bvh.isSome = true) (h2 : w.hasChanged = false)
    (h3 : w.stateChange = 0) :
    preprocess sz st w = (st, none) := by
  simp only [preprocess]
  rw [if_pos ⟨h1, h2, h3⟩]

theorem preprocess_err1 (sz : SizeofSpec) (st : Strategy) (w : WorldDesc)
    (hns : ¬(st.m_bvh.isSome = true ∧ w.hasChanged = false ∧ w.stateChange = 0))
    (ha : (rebuildDev st).maxAllocSize ≤ kMaxBatchSize * kMaxStackSize * sz.intSz) :
    preprocess sz st w =
      ({ st with dev := rebuildDev st }, some PreprocessError.insufficientStack) := by
  simp only [preprocess]
  rw [if_neg hns, if_pos ha]

theorem preprocess_err2 (sz : SizeofSpec) (st : Strategy) (w : WorldDesc)
    (hns : ¬(st.m_bvh.isSome = true ∧ w.hasChanged = false ∧ w.stateChange = 0))
    (ha : ¬((rebuildDev st).maxAllocSize ≤ kMaxBatchSize * kMaxStackSize * sz.intSz))
    (hh : kMaxStackSize ≤ w.bvhHeight) :
    preprocess sz st w =
      ({ st with dev := rebuildDev st, m_bvh := none },
       some PreprocessError.stackOverflowRisk) := by
  simp only [preprocess]
  rw [if_neg hns, if_neg ha, if_pos hh]

theorem preprocess_success (sz : SizeofSpec) (st : Strategy) (w : WorldDesc)
    (hns : ¬(st.m_bvh.isSome = true ∧ w.hasChanged = false ∧ w.stateChange = 0))
    (ha : ¬((rebuildDev st).maxAllocSize ≤ kMaxBatchSize * kMaxStackSize * sz.intSz))
    (hh : ¬(kMaxStackSize ≤ w.bvhHeight)) :
    preprocess sz st w = (successState sz st w, none) := by
  simp only [preprocess]
  rw [if_neg hns, if_neg ha, if_neg hh]
  rfl

/-- Closed form of the successful rebuild: six fresh buffers with ids
nextId..nextId+5 prepended to the live list left by the primary-buffer
release, and the new stack of kMaxBatchSize * kMaxStackSize bytes. -/
theorem successState_eq (sz : SizeofSpec) (st : Strategy) (w : WorldDesc) :
    successState sz st w =
      { dev := { maxAllocSize := st.dev.maxAllocSize,
                 nextId := st.dev.nextId + 6,
                 live := { bid := st.dev.nextId + 5, size := kMaxBatchSize * kMaxStackSize }
                   :: { bid := st.dev.nextId + 4, size := sz.intSz }
                   :: { bid := st.dev.nextId + 3, size := w.numshapes * sz.shapeDataSz }
                   :: { bid := st.dev.nextId + 2, size := w.numfaces * sz.faceSz }
                   :: { bid := st.dev.nextId + 1, size := w.numvertices * sz.float3Sz }
                   :: { bid := st.dev.nextId, size := w.numnodes * sz.nodeSz }
                   :: (rebuildDev st).live },
        m_bvh := some { height := w.bvhHeight },
        gpudata :=
          { bvh := some { bid := st.dev.nextId, size := w.numnodes * sz.nodeSz },
            vertices := some { bid := st.dev.nextId + 1,
                               size := w.numvertices * sz.float3Sz },
            faces := some { bid := st.dev.nextId + 2, size := w.numfaces * sz.faceSz },
            shapes := some { bid := st.dev.nextId + 3,
                             size := w.numshapes * sz.shapeDataSz },
            raycnt := some { bid := st.dev.nextId + 4, size := sz.intSz },
            stack := some { bid := st.dev.nextId + 5,
                            size := kMaxBatchSize * kMaxStackSize } } } := by
  simp only [successState, createBuffer, rebuildDev_nextId, rebuildDev_maxAlloc]

/-! ## Claim C5 — BVH height check -/

/-- Claim C5: on a rebuild whose allocation check passes, Preprocess
reports the stack-overflow-risk error iff the freshly built BVH's height
is at least 48; in that case the BVH is discarded (reset to null) before
the error is reported, and when the height is below 48 preprocessing
proceeds to translation and upload (success, with a BVH installed and
all six device buffers created). -/
theorem c5_height_check (sz : SizeofSpec) (st : Strategy) (w : WorldDesc)
    (hr : st.m_bvh = none ∨ w.hasChanged = true ∨ w.stateChange ≠ 0)
    (ha : kMaxBatchSize * kMaxStackSize * sz.intSz < st.dev.maxAllocSize) :
    ((preprocess sz st w).2 = some PreprocessError.stackOverflowRisk ↔
      kMaxStackSize ≤ w.bvhHeight) ∧
    (kMaxStackSize ≤ w.bvhHeight → (preprocess sz st w).1.m_bvh = none) ∧
    (w.bvhHeight < kMaxStackSize →
      (preprocess sz st w).2 = none ∧
      (preprocess sz st w).1.m_bvh = some { height := w.bvhHeight } ∧
      (preprocess sz st w).1.gpudata.bvh.isSome = true ∧
      (preprocess sz st w).1.gpudata.vertices.isSome = true ∧
      (preprocess sz st w).1.gpudata.faces.isSome = true ∧
      (preprocess sz st w).1.gpudata.shapes.isSome = true ∧
      (preprocess sz st w).1.gpudata.raycnt.isSome = true ∧
      (preprocess sz st w).1.gpudata.stack.isSome = true) := by
  have hns := not_skip_of_trigger st w hr
  have ha2 : ¬((rebuildDev st).maxAllocSize ≤
      kMaxBatchSize * kMaxStackSize * sz.intSz) := by
    rw [rebuildDev_maxAlloc]; omega
  by_cases hh : kMaxStackSize ≤ w.bvhHeight
  · rw [preprocess_err2 sz st w hns ha2 hh]
    exact ⟨iff_of_true rfl hh, fun _ => rfl, fun h => absurd hh (by omega)⟩
  · rw [preprocess_success sz st w hns ha2 hh]
    refine ⟨iff_of_false (by simp) hh, fun h => absurd h hh, fun _ => ?_⟩
    rw [successState_eq]
    exact ⟨rfl, rfl, rfl, rfl, rfl, rfl, rfl, rfl⟩

/-- Witness for C5: rebuilding over a world whose BVH has height 50
raises the stack-overflow error and leaves no BVH behind; the same
strategy on the height-3 world succeeds. -/
theorem c5_witness :
    (preprocess exSizeof exBuiltStrategy exDeepWorld).2
        = some PreprocessError.stackOverflowRisk ∧
    (preprocess exSizeof exBuiltStrategy exDeepWorld).1.m_bvh = none := by
  have h := c5_height_check exSizeof exBuiltStrategy exDeepWorld
    (Or.inr (Or.inl rfl)) (by decide)
  exact ⟨h.1.mpr (by decide), h.2.1 (by decide)⟩

/-! ## Claim C6 — allocation budget check -/

/-- Counterexample to claim C6 as stated: the source check at line 168
uses `<=`, not `<`.  On a device whose max_alloc_size is exactly
1048576 * 48 * 4 = 201326592 bytes the claim says the check passes, but
Preprocess raises the insufficient-stack-memory error. -/
theorem c6_counterexample :
    (preprocess exSizeof exBoundaryStrategy exChangedWorld).2
        = some PreprocessError.insufficientStack ∧
    exBoundaryStrategy.dev.maxAllocSize = 1048576 * 48 * 4 := by
  decide

/-- Claim C6 (amended): on a rebuild, Preprocess fails with the
insufficient-stack-memory error iff the device's max_alloc_size is less
than OR EQUAL TO kMaxBatchSize * kMaxStackSize * sizeof(int)
= 201326592 bytes (the source comparison is `<=`); with a strictly
greater max_alloc_size the check passes. -/
theorem c6_alloc_check_amended (sz : SizeofSpec) (st : Strategy) (w : WorldDesc)
    (hr : st.m_bvh = none ∨ w.hasChanged = true ∨ w.stateChange ≠ 0)
    (hsz : sz.intSz = 4) :
    ((preprocess sz st w).2 = some PreprocessError.insufficientStack ↔
      st.dev.maxAllocSize ≤ 201326592) := by
  have hns := not_skip_of_trigger st w hr
  have hbound : kMaxBatchSize * kMaxStackSize * sz.intSz = 201326592 := by
    rw [hsz]; decide
  by_cases ha : st.dev.maxAllocSize ≤ 201326592
  · rw [preprocess_err1 sz st w hns (by rw [rebuildDev_maxAlloc, hbound]; exact ha)]
    exact iff_of_true rfl ha
  · have ha2 : ¬((rebuildDev st).maxAllocSize ≤
        kMaxBatchSize * kMaxStackSize * sz.intSz) := by
      rw [rebuildDev_maxAlloc, hbound]; omega
    by_cases hh : kMaxStackSize ≤ w.bvhHeight
    · rw [preprocess_err2 sz st w hns ha2 hh]
      exact iff_of_false (by simp) ha
    · rw [preprocess_success sz st w hns ha2 hh]
      exact iff_of_false (by simp) ha

/-- Witness for the amended C6 at the exact boundary value. -/
theorem c6_witness :
    (preprocess exSizeof exBoundaryStrategy exChangedWorld).2
        = some PreprocessError.insufficientStack :=
  (c6_alloc_check_amended exSizeof exBoundaryStrategy exChangedWorld
    (Or.inr (Or.inl rfl)) rfl).mpr (by decide)

/-! ## Claim C7 — no partial state on error -/

/-- Counterexample to claim C7 as stated: when a rebuild over a
previously installed BVH fails the allocation check (thrown at line 170,
before `m_bvh.reset(new Bvh ...)` at line 191), the strategy still holds
the old BVH handle afterwards — the claim asserts it holds no BVH. -/
theorem c7_counterexample :
    (preprocess exSizeof exLowAllocStrategy exChangedWorld).2
        = some PreprocessError.insufficientStack ∧
    (preprocess exSizeof exLowAllocStrategy exChangedWorld).1.m_bvh ≠ none := by
  decide

/-- Claim C7 (amended): if Preprocess terminates with either fatal
error, afterwards none of the strategy's primary buffer pointers refers
to a live allocation (whatever was installed has been released, and
nothing new was created); on the stack-overflow error the strategy holds
no BVH, but on the insufficient-allocation error it retains exactly the
BVH it had on entry — in particular a failing rebuild over an installed
BVH leaves that old BVH handle in place.  The hypothesis is the
constructor invariant (GpuData starts with null primary pointers, which
become non-null only together with the BVH). -/
theorem c7_error_state_amended (sz : SizeofSpec) (st : Strategy) (w : WorldDesc)
    (hinv : st.m_bvh = none →
      st.gpudata.bvh = none ∧ st.gpudata.vertices = none ∧
      st.gpudata.faces = none ∧ st.gpudata.shapes = none ∧
      st.gpudata.raycnt = none)
    (e : PreprocessError) (he : (preprocess sz st w).2 = some e) :
    (∀ b, (preprocess sz st w).1.gpudata.bvh = some b ∨
          (preprocess sz st w).1.gpudata.vertices = some b ∨
          (preprocess sz st w).1.gpudata.faces = some b ∨
          (preprocess sz st w).1.gpudata.shapes = some b ∨
          (preprocess sz st w).1.gpudata.raycnt = some b →
        b ∉ (preprocess sz st w).1.dev.live) ∧
    (e = PreprocessError.stackOverflowRisk → (preprocess sz st w).1.m_bvh = none) ∧
    (e = PreprocessError.insufficientStack →
      (preprocess sz st w).1.m_bvh = st.m_bvh) := by
  by_cases hskip : st.m_bvh.isSome = true ∧ w.hasChanged = false ∧ w.stateChange = 0
  · rw [preprocess_skip sz st w hskip.1 hskip.2.1 hskip.2.2] at he
    cases he
  · by_cases ha : (rebuildDev st).maxAllocSize ≤
        kMaxBatchSize * kMaxStackSize * sz.intSz
    · rw [preprocess_err1 sz st w hskip ha] at he ⊢
      have he2 : e = PreprocessError.insufficientStack := by
        cases he; rfl
      refine ⟨?_, ?_, fun _ => rfl⟩
      · intro b hb
        cases hbvh : st.m_bvh with
        | none =>
          rcases hinv hbvh with ⟨e1, e2, e3, e4, e5⟩
          simp only [e1, e2, e3, e4, e5] at hb
          rcases hb with h | h | h | h | h <;> cases h
        | some oldbvh =>
          show b ∉ (rebuildDev st).live
          have hsome : st.m_bvh.isSome = true := by rw [hbvh]; rfl
          rw [show rebuildDev st = deletePrimary st.dev st.gpudata from by
            unfold rebuildDev; rw [if_pos hsome]]
          exact notMem_deletePrimary st.dev st.gpudata b hb
      · intro h
        rw [he2] at h
        cases h
    · by_cases hh : kMaxStackSize ≤ w.bvhHeight
      · rw [preprocess_err2 sz st w hskip ha hh] at he ⊢
        refine ⟨?_, fun _ => rfl, ?_⟩
        · intro b hb
          cases hbvh : st.m_bvh with
          | none =>
            rcases hinv hbvh with ⟨e1, e2, e3, e4, e5⟩
            simp only [e1, e2, e3, e4, e5] at hb
            rcases hb with h | h | h | h | h <;> cases h
          | some oldbvh =>
            show b ∉ (rebuildDev st).live
            have hsome : st.m_bvh.isSome = true := by rw [hbvh]; rfl
            rw [show rebuildDev st = deletePrimary st.dev st.gpudata from by
              unfold rebuildDev; rw [if_pos hsome]]
            exact notMem_deletePrimary st.dev st.gpudata b hb
        · intro h
          have he2 : e = PreprocessError.stackOverflowRisk := by
            cases he; rfl
          rw [he2] at h
          cases h
      · rw [preprocess_success sz st w hskip ha hh] at he
        cases he

/-- Witness for the amended C7: the failing rebuild on the low-allocation
device releases the installed primary buffers (buffer id 0 is no longer
live) while the old BVH handle survives. -/
theorem c7_witness :
    ({ bid := 0, size := 64 } : Buffer)
        ∉ (preprocess exSizeof exLowAllocStrategy exChangedWorld).1.dev.live ∧
    (preprocess exSizeof exLowAllocStrategy exChangedWorld).1.m_bvh
        = exLowAllocStrategy.m_bvh := by
  have h := c7_error_state_amended exSizeof exLowAllocStrategy exChangedWorld
    (by intro hc; cases hc) PreprocessError.insufficientStack (by decide)
  exact ⟨h.1 { bid := 0, size := 64 } (Or.inl (by decide)), h.2.2 rfl⟩

/-! ## Claim C8 — query-time stack sizing -/

/-- Counterexample to claim C8 as stated: `4 * numrays * kMaxStackSize`
is computed in 32-bit unsigned arithmetic (numrays is a std::uint32_t),
so at numrays = 2^26 the product 12884901888 wraps to 0 and the query
does not reallocate, leaving the stack smaller than 4 * N * 48 even
though 4 * N * 48 exceeds the entry size. -/
theorem c8_counterexample :
    (queryStackResize exQDev exQStack 67108864).2.2 = false ∧
    exQStack.size < 4 * 67108864 * kMaxStackSize ∧
    (queryStackResize exQDev exQStack 67108864).2.1.size
        < 4 * 67108864 * kMaxStackSize := by
  decide

/-- Claim C8 (amended): for each of the four query operations with
N = numrays (scalar) or N = maxrays (indirect), provided the 32-bit size
computation does not wrap (4 * N * 48 < 2^32): after the operation the
stack buffer's size is at least 4 * N * 48 bytes, the stack buffer is
destroyed and reallocated iff 4 * N * 48 exceeds its size at entry
(otherwise device and stack are untouched), and the stack size never
decreases. -/
theorem c8_stack_resize_amended (dev : Device) (stack : Buffer) (n : Nat)
    (hov : 4 * n * kMaxStackSize < 2 ^ 32) :
    ∀ (dev2 : Device) (stack2 : Buffer) (realloc : Bool),
      queryStackResize dev stack n = (dev2, stack2, realloc) →
      4 * n * kMaxStackSize ≤ stack2.size ∧
      (realloc = true ↔ stack.size < 4 * n * kMaxStackSize) ∧
      stack.size ≤ stack2.size ∧
      (realloc = true → stack ∉ dev2.live) ∧
      (realloc = false → dev2 = dev ∧ stack2 = stack) := by
  intro dev2 stack2 realloc heq
  have hreq : requiredStackBytes n = 4 * n * kMaxStackSize :=
    Nat.mod_eq_of_lt hov
  simp only [queryStackResize, hreq] at heq
  by_cases hlt : stack.size < 4 * n * kMaxStackSize
  · rw [if_pos hlt] at heq
    simp only [createBuffer] at heq
    cases heq
    refine ⟨by simp, iff_of_true rfl hlt, by simp; omega, fun _ hmem => ?_,
      fun h => Bool.noConfusion h⟩
    simp only [List.mem_cons] at hmem
    rcases hmem with h | h
    · rw [h] at hlt
      simp at hlt
    · exact notMem_deleteBuffer_self dev stack h
  · rw [if_neg hlt] at heq
    cases heq
    exact ⟨by omega, iff_of_false (by simp) hlt, Nat.le_refl _,
      fun h => Bool.noConfusion h, fun _ => ⟨rfl, rfl⟩⟩

/-- Witness for the amended C8: a query with 10 rays over a 100-byte
stack reallocates to 1920 bytes. -/
theorem c8_witness :
    (queryStackResize exQDev exQStack 10).2.2 = true ∧
    4 * 10 * kMaxStackSize ≤ (queryStackResize exQDev exQStack 10).2.1.size := by
  have h := c8_stack_resize_amended exQDev exQStack 10 (by decide)
    (queryStackResize exQDev exQStack 10).1
    (queryStackResize exQDev exQStack 10).2.1
    (queryStackResize exQDev exQStack 10).2.2 rfl
  exact ⟨h.2.1.mpr (by decide), h.1⟩

/-! ## Claim C9 — rebuild buffer lifecycle -/

/-- Counterexample to claim C9 as stated: a successful rebuild does not
retain the traversal stack buffer — line 434 creates a fresh stack
buffer on every rebuild and overwrites the pointer. -/
theorem c9_counterexample :
    (preprocess exSizeof exBuiltStrategy exChangedWorld).2 = none ∧
    (preprocess exSizeof exBuiltStrategy exChangedWorld).1.gpudata.stack
        ≠ exBuiltStrategy.gpudata.stack := by
  decide

/-- Claim C9 (amended): on a Preprocess call that rebuilds over an
already-installed BVH, the five primary buffers (nodes, vertices, faces,
shapes, raycount) are released and freshly allocated; the traversal
stack pointer is NOT retained: a sixth fresh buffer of
kMaxBatchSize * kMaxStackSize bytes is created and replaces it, while
the previous stack allocation is never released (it stays live — a
leak).  The hypotheses describe a reachable entry state: pointer ids
below the allocator's next id, the stack pointer live and distinct from
the five primary pointers. -/
theorem c9_rebuild_buffers_amended (sz : SizeofSpec) (st : Strategy)
    (w : WorldDesc) (bv : Bvh) (ostk : Buffer)
    (hbvh : st.m_bvh = some bv)
    (hreb : w.hasChanged = true ∨ w.stateChange ≠ 0)
    (ha : kMaxBatchSize * kMaxStackSize * sz.intSz < st.dev.maxAllocSize)
    (hh : w.bvhHeight < kMaxStackSize)
    (hpid : ∀ b : Buffer,
      st.gpudata.bvh = some b ∨ st.gpudata.vertices = some b ∨
      st.gpudata.faces = some b ∨ st.gpudata.shapes = some b ∨
      st.gpudata.raycnt = some b ∨ st.gpudata.stack = some b →
      b.bid < st.dev.nextId)
    (hstk : st.gpudata.stack = some ostk)
    (hstkl : ostk ∈ st.dev.live)
    (hd1 : st.gpudata.bvh ≠ some ostk)
    (hd2 : st.gpudata.vertices ≠ some ostk)
    (hd3 : st.gpudata.faces ≠ some ostk)
    (hd4 : st.gpudata.shapes ≠ some ostk)
    (hd5 : st.gpudata.raycnt ≠ some ostk) :
    (preprocess sz st w).2 = none ∧
    (∀ b, st.gpudata.bvh = some b ∨ st.gpudata.vertices = some b ∨
          st.gpudata.faces = some b ∨ st.gpudata.shapes = some b ∨
          st.gpudata.raycnt = some b →
        b ∉ (preprocess sz st w).1.dev.live) ∧
    (preprocess sz st w).1.gpudata.bvh
        = some { bid := st.dev.nextId, size := w.numnodes * sz.nodeSz } ∧
    (preprocess sz st w).1.gpudata.vertices
        = some { bid := st.dev.nextId + 1, size := w.numvertices * sz.float3Sz } ∧
    (preprocess sz st w).1.gpudata.faces
        = some { bid := st.dev.nextId + 2, size := w.numfaces * sz.faceSz } ∧
    (preprocess sz st w).1.gpudata.shapes
        = some { bid := st.dev.nextId + 3, size := w.numshapes * sz.shapeDataSz } ∧
    (preprocess sz st w).1.gpudata.raycnt
        = some { bid := st.dev.nextId + 4, size := sz.intSz } ∧
    (preprocess sz st w).1.gpudata.stack
        = some { bid := st.dev.nextId + 5, size := kMaxBatchSize * kMaxStackSize } ∧
    (preprocess sz st w).1.gpudata.stack ≠ st.gpudata.stack ∧
    ostk ∈ (preprocess sz st w).1.dev.live := by
  have hns := not_skip_of_trigger st w (Or.inr hreb)
  have ha2 : ¬((rebuildDev st).maxAllocSize ≤
      kMaxBatchSize * kMaxStackSize * sz.intSz) := by
    rw [rebuildDev_maxAlloc]; omega
  have hh2 : ¬(kMaxStackSize ≤ w.bvhHeight) := by omega
  rw [preprocess_success sz st w hns ha2 hh2, successState_eq]
  have hsome : st.m_bvh.isSome = true := by rw [hbvh]; rfl
  have hrb : rebuildDev st = deletePrimary st.dev st.gpudata := by
    unfold rebuildDev; rw [if_pos hsome]
  refine ⟨rfl, ?_, rfl, rfl, rfl, rfl, rfl, rfl, ?_, ?_⟩
  · intro b hb
    have hbid : b.bid < st.dev.nextId := hpid b (by tauto)
    intro hmem
    simp only [List.mem_cons] at hmem
    rcases hmem with h | h | h | h | h | h | h
    · rw [h] at hbid; simp at hbid
    · rw [h] at hbid; simp at hbid
    · rw [h] at hbid; simp at hbid
    · rw [h] at hbid; simp at hbid
    · rw [h] at hbid; simp at hbid
    · rw [h] at hbid; simp at hbid
    · rw [hrb] at h
      exact notMem_deletePrimary st.dev st.gpudata b hb h
  · rw [hstk]
    intro heq
    have hbid : ostk.bid < st.dev.nextId := hpid ostk (by tauto)
    rw [← Option.some.inj heq] at hbid
    simp at hbid
  · simp only [List.mem_cons]
    refine Or.inr (Or.inr (Or.inr (Or.inr (Or.inr (Or.inr ?_)))))
    rw [hrb]
    refine mem_deletePrimary_of_ne st.dev st.gpudata ostk hstkl ?_ ?_ ?_ ?_ ?_
    · exact fun c hc heq => hd1 (hc.trans (congrArg some heq.symm))
    · exact fun c hc heq => hd2 (hc.trans (congrArg some heq.symm))
    · exact fun c hc heq => hd3 (hc.trans (congrArg some heq.symm))
    · exact fun c hc heq => hd4 (hc.trans (congrArg some heq.symm))
    · exact fun c hc heq => hd5 (hc.trans (congrArg some heq.symm))

/-- Witness for the amended C9 on the concrete installed strategy: the
rebuild succeeds, old primary buffer id 0 is released, the stack pointer
now names the fresh buffer id 11 of 50331648 bytes, and the old stack
buffer id 5 is still live (leaked). -/
theorem c9_witness :
    (preprocess exSizeof exBuiltStrategy exChangedWorld).2 = none ∧
    ({ bid := 0, size := 64 } : Buffer)
        ∉ (preprocess exSizeof exBuiltStrategy exChangedWorld).1.dev.live ∧
    (preprocess exSizeof exBuiltStrategy exChangedWorld).1.gpudata.stack
        = some { bid := 11, size := 50331648 } ∧
    ({ bid := 5, size := 50331648 } : Buffer)
        ∈ (preprocess exSizeof exBuiltStrategy exChangedWorld).1.dev.live := by
  have h := c9_rebuild_buffers_amended exSizeof exBuiltStrategy exChangedWorld
    { height := 3 } { bid := 5, size := 50331648 } rfl (Or.inl rfl)
    (by decide) (by decide)
    (by
      intro b hb
      rcases hb with h | h | h | h | h | h <;>
        (have e := Option.some.inj h; rw [← e]; decide))
    rfl (by decide)
    (by decide) (by decide) (by decide) (by decide) (by decide)
  exact ⟨h.1, h.2.1 { bid := 0, size := 64 } (Or.inl rfl),
    h.2.2.2.2.2.2.2.1, h.2.2.2.2.2.2.2.2.2⟩

/-! ## Claim C10 — stack size created by Preprocess -/

/-- Counterexample to the second half of claim C10: the first query
after a successful Preprocess with more than kMaxBatchSize / 4 rays does
NOT always reallocate — at numrays = 2^26 (> 262144) the 32-bit size
computation wraps to 0 and the stack is left untouched. -/
theorem c10_counterexample :
    (preprocess exSizeof exFreshStrategy exChangedWorld).2 = none ∧
    (preprocess exSizeof exFreshStrategy exChangedWorld).1.gpudata.stack
        = some { bid := 5, size := 50331648 } ∧
    kMaxBatchSize / 4 < 67108864 ∧
    (queryStackResize (preprocess exSizeof exFreshStrategy exChangedWorld).1.dev
        { bid := 5, size := 50331648 } 67108864).2.2 = false := by
  decide

/-- Claim C10 (amended): every successful Preprocess that rebuilds
creates the traversal stack buffer with byte size exactly
kMaxBatchSize * kMaxStackSize = 1048576 * 48 bytes (no sizeof(int)
factor — a quarter of the 4 * kMaxBatchSize * 48 bytes a full batch
requires); consequently the first query after Preprocess with more than
kMaxBatchSize / 4 rays destroys and reallocates the stack buffer,
provided its 32-bit size computation does not wrap
(4 * numrays * 48 < 2^32). -/
theorem c10_stack_size_amended (sz : SizeofSpec) (st : Strategy) (w : WorldDesc)
    (hr : st.m_bvh = none ∨ w.hasChanged = true ∨ w.stateChange ≠ 0)
    (ha : kMaxBatchSize * kMaxStackSize * sz.intSz < st.dev.maxAllocSize)
    (hh : w.bvhHeight < kMaxStackSize) (n : Nat)
    (hn : kMaxBatchSize / 4 < n) (hov : 4 * n * kMaxStackSize < 2 ^ 32) :
    ∃ s2 : Buffer,
      (preprocess sz st w).1.gpudata.stack = some s2 ∧
      s2.size = kMaxBatchSize * kMaxStackSize ∧
      4 * kMaxBatchSize * kMaxStackSize = 4 * (kMaxBatchSize * kMaxStackSize) ∧
      (queryStackResize (preprocess sz st w).1.dev s2 n).2.2 = true := by
  have hns := not_skip_of_trigger st w hr
  have ha2 : ¬((rebuildDev st).maxAllocSize ≤
      kMaxBatchSize * kMaxStackSize * sz.intSz) := by
    rw [rebuildDev_maxAlloc]; omega
  have hh2 : ¬(kMaxStackSize ≤ w.bvhHeight) := by omega
  rw [preprocess_success sz st w hns ha2 hh2, successState_eq]
  refine ⟨_, rfl, rfl, by ring, ?_⟩
  have hreq : requiredStackBytes n = 4 * n * kMaxStackSize :=
    Nat.mod_eq_of_lt hov
  have hsz : kMaxBatchSize * kMaxStackSize < 4 * n * kMaxStackSize := by
    have h1 : kMaxBatchSize / 4 = 262144 := by decide
    have h2 : kMaxBatchSize * kMaxStackSize = 50331648 := by decide
    have h3 : kMaxStackSize = 48 := by decide
    rw [h2, h3]
    omega
  simp only [queryStackResize, hreq]
  rw [if_pos (by simpa using hsz)]

/-- Witness for the amended C10: a fresh Preprocess followed by a query
with 300000 rays (more than 262144, no 32-bit wrap) reallocates the
stack. -/
theorem c10_witness :
    (preprocess exSizeof exFreshStrategy exChangedWorld).1.gpudata.stack
        = some { bid := 5, size := 50331648 } ∧
    (queryStackResize (preprocess exSizeof exFreshStrategy exChangedWorld).1.dev
        { bid := 5, size := 50331648 } 300000).2.2 = true := by
  obtain ⟨s2, h1, h2, h3, h4⟩ := c10_stack_size_amended exSizeof exFreshStrategy
    exChangedWorld (Or.inl rfl) (by decide) (by decide) 300000 (by decide) (by decide)
  have hconc : (preprocess exSizeof exFreshStrategy exChangedWorld).1.gpudata.stack
      = some { bid := 5, size := 50331648 } := by decide
  rw [h1] at hconc
  have hs2 := Option.some.inj hconc
  rw [hs2] at h4
  exact ⟨by decide, h4⟩

end FatBvh
